import Mathlib

/-!
Verification of the VM lifecycle manager (`vm_manager.py`).

The development shallowly embeds the program: the configuration document,
the startup-script generator, the remote-operation poller and the mutating
lifecycle operations (`create_instance`, `start_instance`, `stop_instance`,
`restart_instance`, `delete_instance`).  Remote calls are modelled by an
explicit environment (`Env`) scripting the outcome of each client call;
raised Python exceptions become `Except.error`, and the unbounded polling
loop is run against a finite scripted observation list, `none` standing for
an execution that never reaches a terminal status.
-/

deriving instance DecidableEq for Except

/-- In-memory configuration, one field per key of the default configuration
dictionary of `load_config`. -/
structure Config where
  project_id : String
  region : String
  zone : String
  vm_name : String
  machine_type : String
  os_choice : String
  disk_size : Nat
  enable_http_server : Bool
  enable_monitoring : Bool
  instance_state : String
  auto_start : Bool
  auto_restart : Bool
  preemptible : Bool
  tags : List String
  labels : List (String × String)
deriving DecidableEq, Repr

/-- Zone resolution (`get_zone`): the configured zone when non-empty (Python string truthiness),
otherwise the region with a `-a` suffix. -/
def get_zone (cfg : Config) : String :=
  if cfg.zone = "" then cfg.region ++ "-a" else cfg.zone

/-- The `os_images` dictionary mapping an OS choice to its image path;
`none` models a key that is absent (so that a Python lookup raises KeyError). -/
def os_images (choice : String) : Option String :=
  if choice = "ubuntu" then
    some ("projects/ubuntu-os-cloud/global/images/ubuntu-minimal-2504-plucky-amd64-v20250624")
  else if choice = "debian" then
    some ("projects/debian-cloud/global/images/family/debian-12")
  else if choice = "centos" then
    some ("projects/centos-cloud/global/images/family/centos-stream-9")
  else if choice = "rhel" then
    some ("projects/rhel-cloud/global/images/family/rhel-9")
  else none

/-- Python `str.title()` restricted to ASCII letters: a letter is upper-cased
when the preceding character is not a letter and lower-cased otherwise. -/
def pyTitleGo : Bool → List Char → List Char
  | _, [] => []
  | prev, c :: cs =>
    (if prev then c.toLower else c.toUpper) :: pyTitleGo c.isAlpha cs

/-- Python `str.title()` on a whole string. -/
def pyTitle (s : String) : String :=
  String.mk (pyTitleGo false s.data)

/-- The f-string header of `generate_startup_script` (lines before the
HTTP-server branch), literal chunks split at the interpolated values. -/
def scriptHeader (cfg : Config) : String :=
  "#!/bin/bash\necho \"" ++ "=== Starting " ++ pyTitle cfg.os_choice ++ " VM Setup ===" ++
  "\" | tee -a /var/log/startup.log\necho \"Timestamp: $(date)\" | tee -a /var/log/startup.log\necho \"VM Name: " ++
  cfg.vm_name ++
  "\" | tee -a /var/log/startup.log\necho \"Machine Type: " ++
  cfg.machine_type ++
  "\" | tee -a /var/log/startup.log\necho \"Zone: " ++
  get_zone cfg ++
  "\" | tee -a /var/log/startup.log\n"

/-- The Apache section appended for `os_choice == "ubuntu"` with the HTTP
server enabled (the `.format` template of the source, values substituted). -/
def ubuntuSection (cfg : Config) : String :=
  "\necho \"Updating package lists...\" | tee -a /var/log/startup.log\napt-get update 2>&1 | tee -a /var/log/startup.log\necho \"Installing Apache2...\" | tee -a /var/log/startup.log\n" ++
  "apt-get install -y apache2" ++
  " 2>&1 | tee -a /var/log/startup.log\necho \"Creating hello world page...\" | tee -a /var/log/startup.log\nmkdir -p /var/www/html\ncat > /var/www/html/index.html << \x27EOF\x27\n<html>\n<head><title>Python-Managed VM</title></head>\n<body>\n<h1>Hello, World!</h1>\n" ++
  "<p>VM: " ++ cfg.vm_name ++ "</p>" ++
  "\n" ++
  "<p>Zone: " ++ get_zone cfg ++ "</p>" ++
  "\n" ++
  "<p>Machine Type: " ++ cfg.machine_type ++ "</p>" ++
  "\n<p>Managed by: Python Script</p>\n<p>Timestamp: $(date)</p>\n</body>\n</html>\nEOF\necho \"Starting Apache2...\" | tee -a /var/log/startup.log\n" ++
  "systemctl start apache2" ++
  " 2>&1 | tee -a /var/log/startup.log\nsystemctl enable apache2 2>&1 | tee -a /var/log/startup.log\n"

/-- The Nginx section appended for `os_choice == "debian"` with the HTTP
server enabled. -/
def debianSection (cfg : Config) : String :=
  "\necho \"Installing Nginx...\" | tee -a /var/log/startup.log\napt-get update 2>&1 | tee -a /var/log/startup.log\n" ++
  "apt-get install -y nginx" ++
  " 2>&1 | tee -a /var/log/startup.log\necho \"" ++
  "<h1>Hello from Debian!</h1>" ++
  "<p>VM: " ++ cfg.vm_name ++ "</p>" ++
  "\" > /var/www/html/index.html\n" ++
  "systemctl start nginx" ++
  " 2>&1 | tee -a /var/log/startup.log\nsystemctl enable nginx 2>&1 | tee -a /var/log/startup.log\n"

/-- The HTTP-server section of the script: empty unless the HTTP feature is
enabled and the OS choice is one of the two recognised families. -/
def httpSection (cfg : Config) : String :=
  if cfg.enable_http_server = true then
    if cfg.os_choice = "ubuntu" then ubuntuSection cfg
    else if cfg.os_choice = "debian" then debianSection cfg
    else ""
  else ""

/-- The footer appended unconditionally at the end of the script. -/
def scriptFooter (cfg : Config) : String :=
  "\necho \"" ++ "=== " ++ pyTitle cfg.os_choice ++ " VM Setup Complete ===" ++
  "\" | tee -a /var/log/startup.log\n"

/-- The generator `generate_startup_script`: header, then the OS-dependent HTTP section,
then the footer, mirroring the `base_script += ...` accumulation. -/
def generate_startup_script (cfg : Config) : String :=
  scriptHeader cfg ++ httpSection cfg ++ scriptFooter cfg

/-- Substring containment: `s` literally contains `pat`. -/
def Contains (s pat : String) : Prop :=
  ∃ a b, s = a ++ pat ++ b

/-! ## The remote-operation poller -/

/-- Status of a remote operation (`compute_v1.Operation.Status`). -/
inductive OpStatus
  | PENDING
  | RUNNING
  | DONE
deriving DecidableEq, Repr

/-- One observation of a remote operation: its status, the attached error
(`none` when the error field is empty/falsy) and the progress percentage. -/
structure OpObservation where
  status : OpStatus
  error : Option String
  progress : Nat
deriving DecidableEq, Repr

/-- Trace of one run of the `wait_for_operation` loop over a scripted list of
observations: `result` is `none` when the list is exhausted before a terminal
status (the real loop would keep polling forever), `reports` the progress
values printed, and `sleeps` the durations of the `time.sleep` calls. -/
structure PollTrace where
  result : Option Bool
  reports : List Nat
  sleeps : List Nat
deriving DecidableEq, Repr

/-- The poller `wait_for_operation` run against a scripted sequence of observations:
on DONE return `true` exactly when no error is attached; otherwise report the
progress, sleep 2 units, and poll again. -/
def wait_for_operation : List OpObservation → PollTrace
  | [] => { result := none, reports := [], sleeps := [] }
  | o :: rest =>
    match o.status with
    | OpStatus.DONE => { result := some o.error.isNone, reports := [], sleeps := [] }
    | _ =>
      let t := wait_for_operation rest
      { result := t.result, reports := o.progress :: t.reports, sleeps := 2 :: t.sleeps }

/-- A poll script for the lifecycle operations: each fetch either raises
(`Except.error`, e.g. a network failure or the AttributeError of the global
branch) or yields an observation. -/
abbrev PollScript := List (Except String OpObservation)

/-- The poller as used inside the lifecycle operations: a raised
fetch propagates out of the loop, a DONE observation yields the boolean
result, a non-terminal observation continues, and an exhausted script means
the loop never returns. -/
def wait_for_operation_run : PollScript → Option (Except String Bool)
  | [] => none
  | Except.error e :: _ => some (Except.error e)
  | Except.ok o :: rest =>
    match o.status with
    | OpStatus.DONE => some (Except.ok o.error.isNone)
    | _ => wait_for_operation_run rest

/-- An operation handle as `wait_for_operation` sees it: `name` is `some`
exactly when `hasattr(operation, "name")` holds. -/
structure OperationHandle where
  name : Option String
deriving DecidableEq, Repr

/-- The status query one iteration of `wait_for_operation` issues. -/
inductive OpQuery
  | zoneGet (project zone opName : String)
  | globalGet (project opName : String)
deriving DecidableEq, Repr

/-- Construction of the per-iteration status query of `wait_for_operation`:
a handle with a `name` attribute takes the zone-operations branch; a handle
without one takes the branch the source labels "Global operation", which
itself reads `operation.name` — an attribute that does not exist there — and
so raises AttributeError instead of producing a global-operations query. -/
def operation_poll_query (project zone : String) (op : OperationHandle) :
    Except String OpQuery :=
  match op.name with
  | some n => Except.ok (OpQuery.zoneGet project zone n)
  | none => Except.error ("AttributeError: operation has no name attribute")

/-! ## The remote environment and the lifecycle operations -/

/-- Scripted behaviour of the remote API for one lifecycle call: each client
method either raises (`Except.error`) or, for the mutating methods, returns an
operation handle whose subsequent polling yields the given `PollScript`. -/
structure Env where
  instanceGet : Except String String
  firewallGet : Except String Unit
  firewallInsert : Except String PollScript
  instanceInsert : Except String PollScript
  instanceStart : Except String PollScript
  instanceStop : Except String PollScript
  instanceReset : Except String PollScript
  instanceDelete : Except String PollScript

/-- Status query (`get_instance_status`): the status string on success, `none` when the get
raises (the exception is caught and logged inside the method). -/
def get_instance_status (env : Env) : Option String :=
  match env.instanceGet with
  | Except.ok s => some s
  | Except.error _ => none

/-- The firewall resource built by `create_firewall_rule`. -/
structure FirewallRule where
  name : String
  direction : String
  priority : Nat
  source_ranges : List String
  target_tags : List String
  allowed_protocol : String
  allowed_ports : List String
deriving DecidableEq, Repr

/-- The deterministic firewall-rule name derived from the instance name. -/
def rule_name (cfg : Config) : String :=
  cfg.vm_name ++ "-allow-http"

/-- The firewall resource exactly as `create_firewall_rule` populates it. -/
def build_firewall_rule (cfg : Config) : FirewallRule :=
  { name := rule_name cfg
    direction := "INGRESS"
    priority := 1000
    source_ranges := ["0.0.0.0/0"]
    target_tags := ["http-server"]
    allowed_protocol := "tcp"
    allowed_ports := ["80", "443"] }

/-- Python `dict.update` on association lists: values of existing keys are
overwritten in place, new keys are appended in order. -/
def dict_update (base upd : List (String × String)) : List (String × String) :=
  (base.map fun kv =>
    match upd.lookup kv.1 with
    | some v => (kv.1, v)
    | none => kv) ++
  upd.filter fun kv => (base.lookup kv.1).isNone

/-- The instance resource assembled by `create_instance` (the fields the
request carries), with the boot-disk image looked up in `os_images`. -/
structure InstanceResource where
  name : String
  machine_type : String
  source_image : String
  disk_size_gb : Nat
  disk_type : String
  network : String
  preemptible : Bool
  automatic_restart : Bool
  on_host_maintenance : String
  service_account_scopes : List String
  startup_script : String
  enable_oslogin : String
  tags : List String
  labels : List (String × String)
deriving DecidableEq, Repr

/-- Assembly of the instance-create request.  The `os_images` dictionary
lookup happens outside every `try` block of the source, so an unknown
`os_choice` raises a KeyError that escapes `create_instance`. -/
def build_instance (cfg : Config) : Except String InstanceResource :=
  match os_images cfg.os_choice with
  | none => Except.error ("KeyError: " ++ cfg.os_choice)
  | some img =>
    Except.ok
      { name := cfg.vm_name
        machine_type := "zones/" ++ get_zone cfg ++ "/machineTypes/" ++ cfg.machine_type
        source_image := img
        disk_size_gb := cfg.disk_size
        disk_type := "zones/" ++ get_zone cfg ++ "/diskTypes/pd-standard"
        network := "projects/" ++ cfg.project_id ++ "/global/networks/default"
        preemptible := cfg.preemptible
        automatic_restart := cfg.auto_restart && !cfg.preemptible
        on_host_maintenance := if cfg.preemptible then "TERMINATE" else "MIGRATE"
        service_account_scopes :=
          if cfg.enable_monitoring then
            ["https://www.googleapis.com/auth/monitoring.write",
             "https://www.googleapis.com/auth/logging.write"]
          else []
        startup_script := generate_startup_script cfg
        enable_oslogin := "true"
        tags :=
          if cfg.enable_http_server && !(cfg.tags.contains ("http-server")) then
            cfg.tags ++ ["http-server"]
          else cfg.tags
        labels :=
          dict_update cfg.labels
            [("os-type", cfg.os_choice),
             ("managed-by", "python-script"),
             ("instance-state", cfg.instance_state.toLower),
             ("preemptible", if cfg.preemptible then "true" else "false")] }

/-- A mutating request submitted to the remote API (operation polling and
read-only gets are not recorded here). -/
inductive ApiCall
  | firewallsInsert (rule : FirewallRule)
  | instancesInsert (inst : InstanceResource)
  | instancesStart (name : String)
  | instancesStop (name : String)
  | instancesReset (name : String)
  | instancesDelete (name : String)
deriving DecidableEq, Repr

/-- Outcome of one lifecycle method: `ret` is `none` when the method blocks
forever in the poller, `some (Except.error e)` when a Python exception
escapes the method, and `some (Except.ok b)` when it returns the boolean `b`;
`cfg` is the in-memory configuration afterwards, `saves` the configurations
passed to `save_config` in order, and `calls` the mutating API requests
submitted in order. -/
structure StepResult where
  ret : Option (Except String Bool)
  cfg : Config
  saves : List Config
  calls : List ApiCall
deriving Repr

/-- Firewall ensure (`create_firewall_rule`): immediate success when the HTTP feature is off;
success without insertion when the existence check succeeds; otherwise (any
failure of the check counts as absence) insert the rule and await the
operation, every exception being caught and turned into `False`. -/
def create_firewall_rule (cfg : Config) (env : Env) : StepResult :=
  if cfg.enable_http_server = false then
    { ret := some (Except.ok true), cfg := cfg, saves := [], calls := [] }
  else
    match env.firewallGet with
    | Except.ok _ =>
      { ret := some (Except.ok true), cfg := cfg, saves := [], calls := [] }
    | Except.error _ =>
      match env.firewallInsert with
      | Except.error _ =>
        { ret := some (Except.ok false), cfg := cfg, saves := [],
          calls := [ApiCall.firewallsInsert (build_firewall_rule cfg)] }
      | Except.ok script =>
        match wait_for_operation_run script with
        | none =>
          { ret := none, cfg := cfg, saves := [],
            calls := [ApiCall.firewallsInsert (build_firewall_rule cfg)] }
        | some (Except.error _) =>
          { ret := some (Except.ok false), cfg := cfg, saves := [],
            calls := [ApiCall.firewallsInsert (build_firewall_rule cfg)] }
        | some (Except.ok b) =>
          { ret := some (Except.ok b), cfg := cfg, saves := [],
            calls := [ApiCall.firewallsInsert (build_firewall_rule cfg)] }

/-- Stop (`stop_instance`): idempotent success when already TERMINATED/STOPPED,
failure when the status query fails, otherwise submit the stop, await it and
on success persist `instance_state = "TERMINATED"`. -/
def stop_instance (cfg : Config) (env : Env) : StepResult :=
  match get_instance_status env with
  | none =>
    { ret := some (Except.ok false), cfg := cfg, saves := [], calls := [] }
  | some st =>
    if st = "TERMINATED" ∨ st = "STOPPED" then
      { ret := some (Except.ok true), cfg := cfg, saves := [], calls := [] }
    else
      match env.instanceStop with
      | Except.error _ =>
        { ret := some (Except.ok false), cfg := cfg, saves := [],
          calls := [ApiCall.instancesStop cfg.vm_name] }
      | Except.ok script =>
        match wait_for_operation_run script with
        | none =>
          { ret := none, cfg := cfg, saves := [],
            calls := [ApiCall.instancesStop cfg.vm_name] }
        | some (Except.error _) =>
          { ret := some (Except.ok false), cfg := cfg, saves := [],
            calls := [ApiCall.instancesStop cfg.vm_name] }
        | some (Except.ok false) =>
          { ret := some (Except.ok false), cfg := cfg, saves := [],
            calls := [ApiCall.instancesStop cfg.vm_name] }
        | some (Except.ok true) =>
          let c2 := { cfg with instance_state := "TERMINATED" }
          { ret := some (Except.ok true), cfg := c2, saves := [c2],
            calls := [ApiCall.instancesStop cfg.vm_name] }

/-- Start (`start_instance`): idempotent success when already RUNNING, failure when
the status query fails, otherwise submit the start, await it and on success
persist `instance_state = "RUNNING"` (the trailing sleep and access-info
display have no effect on the result). -/
def start_instance (cfg : Config) (env : Env) : StepResult :=
  match get_instance_status env with
  | none =>
    { ret := some (Except.ok false), cfg := cfg, saves := [], calls := [] }
  | some st =>
    if st = "RUNNING" then
      { ret := some (Except.ok true), cfg := cfg, saves := [], calls := [] }
    else
      match env.instanceStart with
      | Except.error _ =>
        { ret := some (Except.ok false), cfg := cfg, saves := [],
          calls := [ApiCall.instancesStart cfg.vm_name] }
      | Except.ok script =>
        match wait_for_operation_run script with
        | none =>
          { ret := none, cfg := cfg, saves := [],
            calls := [ApiCall.instancesStart cfg.vm_name] }
        | some (Except.error _) =>
          { ret := some (Except.ok false), cfg := cfg, saves := [],
            calls := [ApiCall.instancesStart cfg.vm_name] }
        | some (Except.ok false) =>
          { ret := some (Except.ok false), cfg := cfg, saves := [],
            calls := [ApiCall.instancesStart cfg.vm_name] }
        | some (Except.ok true) =>
          let c2 := { cfg with instance_state := "RUNNING" }
          { ret := some (Except.ok true), cfg := c2, saves := [c2],
            calls := [ApiCall.instancesStart cfg.vm_name] }

/-- Restart (`restart_instance`): unconditionally submit a reset and await it; no
configuration change is persisted. -/
def restart_instance (cfg : Config) (env : Env) : StepResult :=
  match env.instanceReset with
  | Except.error _ =>
    { ret := some (Except.ok false), cfg := cfg, saves := [],
      calls := [ApiCall.instancesReset cfg.vm_name] }
  | Except.ok script =>
    match wait_for_operation_run script with
    | none =>
      { ret := none, cfg := cfg, saves := [],
        calls := [ApiCall.instancesReset cfg.vm_name] }
    | some (Except.error _) =>
      { ret := some (Except.ok false), cfg := cfg, saves := [],
        calls := [ApiCall.instancesReset cfg.vm_name] }
    | some (Except.ok b) =>
      { ret := some (Except.ok b), cfg := cfg, saves := [],
        calls := [ApiCall.instancesReset cfg.vm_name] }

/-- Delete (`delete_instance`): unconditionally submit a delete and await it. -/
def delete_instance (cfg : Config) (env : Env) : StepResult :=
  match env.instanceDelete with
  | Except.error _ =>
    { ret := some (Except.ok false), cfg := cfg, saves := [],
      calls := [ApiCall.instancesDelete cfg.vm_name] }
  | Except.ok script =>
    match wait_for_operation_run script with
    | none =>
      { ret := none, cfg := cfg, saves := [],
        calls := [ApiCall.instancesDelete cfg.vm_name] }
    | some (Except.error _) =>
      { ret := some (Except.ok false), cfg := cfg, saves := [],
        calls := [ApiCall.instancesDelete cfg.vm_name] }
    | some (Except.ok b) =>
      { ret := some (Except.ok b), cfg := cfg, saves := [],
        calls := [ApiCall.instancesDelete cfg.vm_name] }

/-- Create (`create_instance`): early idempotent success when the instance-get
succeeds; otherwise firewall ensure, request assembly (where the image lookup
may raise), submission and await — the submission and await sit inside a
`try`, so their exceptions become `False` — and on success a cascading stop
when the desired state is TERMINATED. -/
def create_instance (cfg : Config) (env : Env) : StepResult :=
  match env.instanceGet with
  | Except.ok _ =>
    { ret := some (Except.ok true), cfg := cfg, saves := [], calls := [] }
  | Except.error _ =>
    let fr := create_firewall_rule cfg env
    match fr.ret with
    | none => { ret := none, cfg := cfg, saves := [], calls := fr.calls }
    | some (Except.error e) =>
      { ret := some (Except.error e), cfg := cfg, saves := [], calls := fr.calls }
    | some (Except.ok false) =>
      { ret := some (Except.ok false), cfg := cfg, saves := [], calls := fr.calls }
    | some (Except.ok true) =>
      match build_instance cfg with
      | Except.error e =>
        { ret := some (Except.error e), cfg := cfg, saves := [], calls := fr.calls }
      | Except.ok inst =>
        match env.instanceInsert with
        | Except.error _ =>
          { ret := some (Except.ok false), cfg := cfg, saves := [],
            calls := fr.calls ++ [ApiCall.instancesInsert inst] }
        | Except.ok script =>
          match wait_for_operation_run script with
          | none =>
            { ret := none, cfg := cfg, saves := [],
              calls := fr.calls ++ [ApiCall.instancesInsert inst] }
          | some (Except.error _) =>
            { ret := some (Except.ok false), cfg := cfg, saves := [],
              calls := fr.calls ++ [ApiCall.instancesInsert inst] }
          | some (Except.ok false) =>
            { ret := some (Except.ok false), cfg := cfg, saves := [],
              calls := fr.calls ++ [ApiCall.instancesInsert inst] }
          | some (Except.ok true) =>
            if cfg.instance_state = "TERMINATED" then
              let s := stop_instance cfg env
              match s.ret with
              | none =>
                { ret := none, cfg := s.cfg, saves := s.saves,
                  calls := fr.calls ++ [ApiCall.instancesInsert inst] ++ s.calls }
              | some (Except.error _) =>
                { ret := some (Except.ok false), cfg := s.cfg, saves := s.saves,
                  calls := fr.calls ++ [ApiCall.instancesInsert inst] ++ s.calls }
              | some (Except.ok _) =>
                { ret := some (Except.ok true), cfg := s.cfg, saves := s.saves,
                  calls := fr.calls ++ [ApiCall.instancesInsert inst] ++ s.calls }
            else
              { ret := some (Except.ok true), cfg := cfg, saves := [],
                calls := fr.calls ++ [ApiCall.instancesInsert inst] }

/-! ## The configuration store -/

/-- A JSON value of the kinds the configuration document uses. -/
inductive JVal
  | s (v : String)
  | n (v : Int)
  | b (v : Bool)
  | strs (v : List String)
  | dict (v : List (String × String))
deriving DecidableEq, Repr

/-- The `default_config` dictionary of `load_config`, in source order. -/
def default_config : List (String × JVal) :=
  [("project_id", JVal.s ("your-gcp-project-id")),
   ("region", JVal.s ("us-central1")),
   ("zone", JVal.s ("")),
   ("vm_name", JVal.s ("python-managed-vm")),
   ("machine_type", JVal.s ("e2-micro")),
   ("os_choice", JVal.s ("ubuntu")),
   ("disk_size", JVal.n 20),
   ("enable_http_server", JVal.b true),
   ("enable_monitoring", JVal.b false),
   ("instance_state", JVal.s ("RUNNING")),
   ("auto_start", JVal.b true),
   ("auto_restart", JVal.b true),
   ("preemptible", JVal.b false),
   ("tags", JVal.strs (["python-managed", "http-server"])),
   ("labels", JVal.dict ([("created-by", "python-script"),
                          ("environment", "development")]))]

/-- State of the configuration file on disk as `load_config` finds it. -/
inductive DiskFile
  | absent
  | corrupt
  | doc (d : List (String × JVal))

/-- Outcome of `load_config`: the returned configuration, the document
written to disk when the file had to be created, and whether a load error
was reported (the corrupt-file path logs and falls back to defaults). -/
structure LoadResult where
  config : List (String × JVal)
  wrote : Option (List (String × JVal))
  errorReported : Bool
deriving DecidableEq, Repr

/-- Python dictionary lookup on an association list (first match wins). -/
def pyget (d : List (String × JVal)) (k : String) : Option JVal :=
  match d with
  | [] => none
  | (a, v) :: rest => if k = a then some v else pyget rest k

/-- The merge loop of `load_config`: the on-disk document keeps all its
entries and every default key it lacks is appended. -/
def merge_defaults (d : List (String × JVal)) : List (String × JVal) :=
  d ++ default_config.filter fun kv => (pyget d kv.1).isNone

/-- The loader `load_config` over the three possible disk states. -/
def load_config : DiskFile → LoadResult
  | DiskFile.doc d =>
    { config := merge_defaults d, wrote := none, errorReported := false }
  | DiskFile.corrupt =>
    { config := default_config, wrote := none, errorReported := true }
  | DiskFile.absent =>
    { config := default_config, wrote := some default_config,
      errorReported := false }

/-! ## Helper lemmas -/

theorem wfo_nonterminal (pre : List OpObservation)
    (h : ∀ o ∈ pre, o.status ≠ OpStatus.DONE) :
    (wait_for_operation pre).result = none := by
  induction pre with
  | nil => rfl
  | cons o rest ih =>
    have ho := h o (by simp)
    cases hs : o.status with
    | DONE => exact absurd hs ho
    | PENDING =>
      simp only [wait_for_operation, hs]
      exact ih fun x hx => h x (by simp [hx])
    | RUNNING =>
      simp only [wait_for_operation, hs]
      exact ih fun x hx => h x (by simp [hx])

theorem wfo_terminal_trace (obs : List OpObservation) (last : OpObservation)
    (hprior : ∀ o ∈ obs, o.status ≠ OpStatus.DONE)
    (hdone : last.status = OpStatus.DONE) :
    wait_for_operation (obs ++ [last]) =
      { result := some last.error.isNone,
        reports := obs.map OpObservation.progress,
        sleeps := List.replicate obs.length 2 } := by
  induction obs with
  | nil => simp [wait_for_operation, hdone]
  | cons o rest ih =>
    have ho := hprior o (by simp)
    have hrest := ih fun x hx => hprior x (by simp [hx])
    cases hs : o.status with
    | DONE => exact absurd hs ho
    | PENDING => simp [wait_for_operation, hs, hrest, List.replicate_succ]
    | RUNNING => simp [wait_for_operation, hs, hrest, List.replicate_succ]

theorem pyget_append_left (l₁ l₂ : List (String × JVal)) (k : String) (v : JVal)
    (h : pyget l₁ k = some v) : pyget (l₁ ++ l₂) k = some v := by
  induction l₁ with
  | nil => simp [pyget] at h
  | cons a rest ih =>
    obtain ⟨a1, a2⟩ := a
    by_cases hk : k = a1
    · simpa [pyget, hk] using h
    · simp only [pyget, hk, if_false, List.cons_append] at h ⊢
      exact ih h

theorem pyget_append_right (l₁ l₂ : List (String × JVal)) (k : String)
    (h : pyget l₁ k = none) : pyget (l₁ ++ l₂) k = pyget l₂ k := by
  induction l₁ with
  | nil => rfl
  | cons a rest ih =>
    obtain ⟨a1, a2⟩ := a
    by_cases hk : k = a1
    · simp [pyget, hk] at h
    · simp only [pyget, hk, if_false, List.cons_append] at h ⊢
      exact ih h

theorem pyget_filter_of_key (l : List (String × JVal)) (p : String × JVal → Bool)
    (k : String) (hp : ∀ v, p (k, v) = true) :
    pyget (l.filter p) k = pyget l k := by
  induction l with
  | nil => rfl
  | cons a rest ih =>
    obtain ⟨a1, a2⟩ := a
    by_cases hk : k = a1
    · subst hk
      simp [List.filter, hp a2, pyget, ih]
    · cases hpa : p (a1, a2) with
      | true => simp [List.filter, hpa, pyget, hk, ih]
      | false => simp [List.filter, hpa, pyget, hk, ih]

theorem stop_instance_ret_shape (cfg : Config) (env : Env) :
    (stop_instance cfg env).ret = none
    ∨ ∃ b, (stop_instance cfg env).ret = some (Except.ok b) := by
  cases hs : get_instance_status env with
  | none => exact Or.inr ⟨false, by simp [stop_instance, hs]⟩
  | some st =>
    by_cases hterm : st = "TERMINATED" ∨ st = "STOPPED"
    · exact Or.inr ⟨true, by simp [stop_instance, hs, hterm]⟩
    · cases hstop : env.instanceStop with
      | error e => exact Or.inr ⟨false, by simp [stop_instance, hs, hterm, hstop]⟩
      | ok script =>
        cases hw : wait_for_operation_run script with
        | none => exact Or.inl (by simp [stop_instance, hs, hterm, hstop, hw])
        | some r =>
          cases r with
          | error e =>
            exact Or.inr ⟨false, by simp [stop_instance, hs, hterm, hstop, hw]⟩
          | ok b =>
            cases b with
            | false =>
              exact Or.inr ⟨false, by simp [stop_instance, hs, hterm, hstop, hw]⟩
            | true =>
              exact Or.inr ⟨true, by simp [stop_instance, hs, hterm, hstop, hw]⟩

theorem start_instance_ret_shape (cfg : Config) (env : Env) :
    (start_instance cfg env).ret = none
    ∨ ∃ b, (start_instance cfg env).ret = some (Except.ok b) := by
  cases hs : get_instance_status env with
  | none => exact Or.inr ⟨false, by simp [start_instance, hs]⟩
  | some st =>
    by_cases hrun : st = "RUNNING"
    · exact Or.inr ⟨true, by simp [start_instance, hs, hrun]⟩
    · cases hstart : env.instanceStart with
      | error e => exact Or.inr ⟨false, by simp [start_instance, hs, hrun, hstart]⟩
      | ok script =>
        cases hw : wait_for_operation_run script with
        | none => exact Or.inl (by simp [start_instance, hs, hrun, hstart, hw])
        | some r =>
          cases r with
          | error e =>
            exact Or.inr ⟨false, by simp [start_instance, hs, hrun, hstart, hw]⟩
          | ok b =>
            cases b with
            | false =>
              exact Or.inr ⟨false, by simp [start_instance, hs, hrun, hstart, hw]⟩
            | true =>
              exact Or.inr ⟨true, by simp [start_instance, hs, hrun, hstart, hw]⟩

theorem restart_instance_ret_shape (cfg : Config) (env : Env) :
    (restart_instance cfg env).ret = none
    ∨ ∃ b, (restart_instance cfg env).ret = some (Except.ok b) := by
  cases hres : env.instanceReset with
  | error e => exact Or.inr ⟨false, by simp [restart_instance, hres]⟩
  | ok script =>
    cases hw : wait_for_operation_run script with
    | none => exact Or.inl (by simp [restart_instance, hres, hw])
    | some r =>
      cases r with
      | error e => exact Or.inr ⟨false, by simp [restart_instance, hres, hw]⟩
      | ok b => exact Or.inr ⟨b, by simp [restart_instance, hres, hw]⟩

theorem delete_instance_ret_shape (cfg : Config) (env : Env) :
    (delete_instance cfg env).ret = none
    ∨ ∃ b, (delete_instance cfg env).ret = some (Except.ok b) := by
  cases hdel : env.instanceDelete with
  | error e => exact Or.inr ⟨false, by simp [delete_instance, hdel]⟩
  | ok script =>
    cases hw : wait_for_operation_run script with
    | none => exact Or.inl (by simp [delete_instance, hdel, hw])
    | some r =>
      cases r with
      | error e => exact Or.inr ⟨false, by simp [delete_instance, hdel, hw]⟩
      | ok b => exact Or.inr ⟨b, by simp [delete_instance, hdel, hw]⟩

theorem create_firewall_rule_ret_shape (cfg : Config) (env : Env) :
    (create_firewall_rule cfg env).ret = none
    ∨ ∃ b, (create_firewall_rule cfg env).ret = some (Except.ok b) := by
  by_cases hh : cfg.enable_http_server = false
  · exact Or.inr ⟨true, by simp [create_firewall_rule, hh]⟩
  · cases hg : env.firewallGet with
    | ok u => exact Or.inr ⟨true, by simp [create_firewall_rule, hh, hg]⟩
    | error e =>
      cases hins : env.firewallInsert with
      | error e2 => exact Or.inr ⟨false, by simp [create_firewall_rule, hh, hg, hins]⟩
      | ok script =>
        cases hw : wait_for_operation_run script with
        | none => exact Or.inl (by simp [create_firewall_rule, hh, hg, hins, hw])
        | some r =>
          cases r with
          | error e2 =>
            exact Or.inr ⟨false, by simp [create_firewall_rule, hh, hg, hins, hw]⟩
          | ok b =>
            exact Or.inr ⟨b, by simp [create_firewall_rule, hh, hg, hins, hw]⟩

theorem stop_instance_calls_shape (cfg : Config) (env : Env) :
    (stop_instance cfg env).calls = []
    ∨ (stop_instance cfg env).calls = [ApiCall.instancesStop cfg.vm_name] := by
  cases hs : get_instance_status env with
  | none => exact Or.inl (by simp [stop_instance, hs])
  | some st =>
    by_cases hterm : st = "TERMINATED" ∨ st = "STOPPED"
    · exact Or.inl (by simp [stop_instance, hs, hterm])
    · cases hstop : env.instanceStop with
      | error e => exact Or.inr (by simp [stop_instance, hs, hterm, hstop])
      | ok script =>
        cases hw : wait_for_operation_run script with
        | none => exact Or.inr (by simp [stop_instance, hs, hterm, hstop, hw])
        | some r =>
          cases r with
          | error e => exact Or.inr (by simp [stop_instance, hs, hterm, hstop, hw])
          | ok b =>
            cases b with
            | false => exact Or.inr (by simp [stop_instance, hs, hterm, hstop, hw])
            | true => exact Or.inr (by simp [stop_instance, hs, hterm, hstop, hw])

theorem create_instance_ret_shape (cfg : Config) (env : Env)
    (hos : (os_images cfg.os_choice).isSome = true) :
    (create_instance cfg env).ret = none
    ∨ ∃ b, (create_instance cfg env).ret = some (Except.ok b) := by
  obtain ⟨img, himg⟩ := Option.isSome_iff_exists.mp hos
  cases hget : env.instanceGet with
  | ok s => exact Or.inr ⟨true, by simp [create_instance, hget]⟩
  | error e0 =>
    rcases create_firewall_rule_ret_shape cfg env with hfr | ⟨fb, hfr⟩
    · exact Or.inl (by simp [create_instance, hget, hfr])
    · cases fb with
      | false => exact Or.inr ⟨false, by simp [create_instance, hget, hfr]⟩
      | true =>
        cases hins : env.instanceInsert with
        | error e1 =>
          exact Or.inr ⟨false, by simp [create_instance, hget, hfr, build_instance, himg, hins]⟩
        | ok script =>
          cases hw : wait_for_operation_run script with
          | none =>
            exact Or.inl (by simp [create_instance, hget, hfr, build_instance, himg, hins, hw])
          | some r =>
            cases r with
            | error e1 =>
              exact Or.inr ⟨false,
                by simp [create_instance, hget, hfr, build_instance, himg, hins, hw]⟩
            | ok b =>
              cases b with
              | false =>
                exact Or.inr ⟨false,
                  by simp [create_instance, hget, hfr, build_instance, himg, hins, hw]⟩
              | true =>
                by_cases hterm : cfg.instance_state = "TERMINATED"
                · rcases stop_instance_ret_shape cfg env with hst | ⟨sb, hst⟩
                  · exact Or.inl (by simp [create_instance, hget, hfr, build_instance,
                      himg, hins, hw, hterm, hst])
                  · exact Or.inr ⟨true, by simp [create_instance, hget, hfr, build_instance,
                      himg, hins, hw, hterm, hst]⟩
                · exact Or.inr ⟨true, by simp [create_instance, hget, hfr, build_instance,
                    himg, hins, hw, hterm]⟩

theorem ret_shape_no_error {r : StepResult}
    (h : r.ret = none ∨ ∃ b, r.ret = some (Except.ok b)) (e : String) :
    r.ret ≠ some (Except.error e) := by
  rcases h with h | ⟨b, h⟩ <;> simp [h]

/-! ## Concrete fixtures used by witnesses and counterexamples -/

/-- A typical configuration (zone left empty, HTTP server enabled). -/
def cfgDemo : Config :=
  { project_id := "demo-project"
    region := "us-west1"
    zone := ""
    vm_name := "demo"
    machine_type := "e2-micro"
    os_choice := "ubuntu"
    disk_size := 20
    enable_http_server := true
    enable_monitoring := false
    instance_state := "RUNNING"
    auto_start := true
    auto_restart := true
    preemptible := false
    tags := ["python-managed", "http-server"]
    labels := [("created-by", "python-script"), ("environment", "development")] }

/-- A DONE observation without an attached error. -/
def doneOk : OpObservation :=
  { status := OpStatus.DONE, error := none, progress := 100 }

/-- Remote behaviour where neither the instance nor the firewall rule exists
and every submitted operation completes successfully at once. -/
def envAbsent : Env :=
  { instanceGet := Except.error ("404 instance not found")
    firewallGet := Except.error ("404 firewall not found")
    firewallInsert := Except.ok [Except.ok doneOk]
    instanceInsert := Except.ok [Except.ok doneOk]
    instanceStart := Except.ok [Except.ok doneOk]
    instanceStop := Except.ok [Except.ok doneOk]
    instanceReset := Except.ok [Except.ok doneOk]
    instanceDelete := Except.ok [Except.ok doneOk] }

/-- Like `envAbsent` but the instance exists and is RUNNING. -/
def envRunning : Env :=
  { envAbsent with instanceGet := Except.ok ("RUNNING") }

/-- Like `envAbsent` but the instance exists and is TERMINATED. -/
def envTerminated : Env :=
  { envAbsent with instanceGet := Except.ok ("TERMINATED") }

/-- Like `envRunning` but the firewall rule also exists already. -/
def envRunningFw : Env :=
  { envRunning with firewallGet := Except.ok () }

/-! ## Claims -/

/-- C1: for every finite observation sequence whose prior elements are
non-terminal and whose last element is DONE, `wait_for_operation` returns
success exactly when the DONE observation carries no error (failure exactly
when it carries one); for each prior observation it reports that
numeric progress of that observation and sleeps a fixed 2-unit interval; and on a
sequence with no terminal observation it never returns (no timeout). -/
theorem wait_for_operation_poller_contract (obs : List OpObservation)
    (last : OpObservation)
    (hprior : ∀ o ∈ obs, o.status ≠ OpStatus.DONE)
    (hdone : last.status = OpStatus.DONE) :
    (wait_for_operation (obs ++ [last])).result = some last.error.isNone
    ∧ (wait_for_operation (obs ++ [last])).reports = obs.map OpObservation.progress
    ∧ (wait_for_operation (obs ++ [last])).sleeps = List.replicate obs.length 2
    ∧ ∀ pre : List OpObservation, (∀ o ∈ pre, o.status ≠ OpStatus.DONE) →
        (wait_for_operation pre).result = none := by
  refine ⟨?_, ?_, ?_, wfo_nonterminal⟩ <;>
    simp [wfo_terminal_trace obs last hprior hdone]

theorem wait_for_operation_poller_contract_witness :
    (wait_for_operation
        [{ status := OpStatus.PENDING, error := none, progress := 10 },
         { status := OpStatus.RUNNING, error := none, progress := 60 },
         { status := OpStatus.DONE, error := none, progress := 100 }]).result = some true
    ∧ (wait_for_operation
        [{ status := OpStatus.PENDING, error := none, progress := 10 },
         { status := OpStatus.RUNNING, error := none, progress := 60 },
         { status := OpStatus.DONE, error := none, progress := 100 }]).reports = [10, 60]
    ∧ (wait_for_operation
        [{ status := OpStatus.PENDING, error := none, progress := 10 },
         { status := OpStatus.RUNNING, error := none, progress := 60 },
         { status := OpStatus.DONE, error := none, progress := 100 }]).sleeps = [2, 2]
    ∧ (wait_for_operation
        [{ status := OpStatus.PENDING, error := none, progress := 10 },
         { status := OpStatus.RUNNING, error := none, progress := 60 },
         { status := OpStatus.DONE, error := some ("quota exceeded"), progress := 100 }]).result
        = some false := by
  have h1 := wait_for_operation_poller_contract
    [{ status := OpStatus.PENDING, error := none, progress := 10 },
     { status := OpStatus.RUNNING, error := none, progress := 60 }]
    { status := OpStatus.DONE, error := none, progress := 100 }
    (by decide) (by decide)
  have h2 := wait_for_operation_poller_contract
    [{ status := OpStatus.PENDING, error := none, progress := 10 },
     { status := OpStatus.RUNNING, error := none, progress := 60 }]
    { status := OpStatus.DONE, error := some ("quota exceeded"), progress := 100 }
    (by decide) (by decide)
  exact ⟨h1.1, h1.2.1, h1.2.2.1, h2.1⟩

/-- C2: the poller selects its branch by the presence of a `name` attribute
on the handle; a handle carrying a name is polled through the zone-operations
client, while a handle without one — the case the inline comment in the source labels
"Global operation" — makes the global branch read the absent `operation.name`
and raise AttributeError, so no global-operations status query is ever
issued. -/
theorem wait_for_operation_global_branch_attribute_error :
    operation_poll_query ("demo-project") ("us-west1-a") { name := some ("op-123") }
      = Except.ok (OpQuery.zoneGet ("demo-project") ("us-west1-a") ("op-123"))
    ∧ operation_poll_query ("demo-project") ("us-west1-a") { name := none }
      = Except.error ("AttributeError: operation has no name attribute") :=
  ⟨rfl, rfl⟩

/-- C6: `load_config` merges the on-disk document over the defaults — every
default key is bound to the on-disk value when present and to the default
value when absent, extra on-disk keys are preserved — a missing file is
created with the defaults and the defaults returned, and a corrupt file
yields the defaults with an error reported and no fatal failure. -/
theorem load_config_contract :
    (∀ d k v, pyget default_config k = some v →
      pyget (load_config (DiskFile.doc d)).config k = some ((pyget d k).getD v))
    ∧ (∀ d k v, pyget d k = some v →
      pyget (load_config (DiskFile.doc d)).config k = some v)
    ∧ (load_config DiskFile.absent).config = default_config
    ∧ (load_config DiskFile.absent).wrote = some default_config
    ∧ (load_config DiskFile.corrupt).config = default_config
    ∧ (load_config DiskFile.corrupt).wrote = none
    ∧ (load_config DiskFile.corrupt).errorReported = true := by
  refine ⟨?_, ?_, rfl, rfl, rfl, rfl, rfl⟩
  · intro d k v hv
    cases hd : pyget d k with
    | some w =>
      simpa [hd] using pyget_append_left d _ k w hd
    | none =>
      have hfil : pyget (default_config.filter fun kv => (pyget d kv.1).isNone) k
          = pyget default_config k := by
        refine pyget_filter_of_key default_config _ k fun w => ?_
        simp [hd]
      simp only [load_config, merge_defaults, hd, Option.getD_none]
      rw [pyget_append_right d _ k hd, hfil, hv]
  · intro d k v hv
    exact pyget_append_left d _ k v hv

theorem load_config_contract_witness :
    pyget (load_config (DiskFile.doc
        [("vm_name", JVal.s ("web")), ("extra", JVal.n 7)])).config "disk_size"
      = some (JVal.n 20)
    ∧ pyget (load_config (DiskFile.doc
        [("vm_name", JVal.s ("web")), ("extra", JVal.n 7)])).config "vm_name"
      = some (JVal.s ("web"))
    ∧ pyget (load_config (DiskFile.doc
        [("vm_name", JVal.s ("web")), ("extra", JVal.n 7)])).config "extra"
      = some (JVal.n 7)
    ∧ (load_config DiskFile.absent).wrote = some default_config := by
  have h := load_config_contract
  refine ⟨?_, ?_, ?_, h.2.2.2.1⟩
  · have := h.1 [("vm_name", JVal.s ("web")), ("extra", JVal.n 7)]
      "disk_size" (JVal.n 20) (by decide)
    simpa using this
  · have := h.1 [("vm_name", JVal.s ("web")), ("extra", JVal.n 7)]
      "vm_name" (JVal.s ("python-managed-vm")) (by decide)
    simpa using this
  · exact h.2.1 [("vm_name", JVal.s ("web")), ("extra", JVal.n 7)]
      "extra" (JVal.n 7) (by decide)

/-- C3 counterexample: with an `os_choice` outside the `os_images`
dictionary, `create_instance` performs the image lookup outside every `try`
block, so a KeyError escapes to the caller instead of a boolean `False`. -/
theorem create_instance_uncaught_keyerror :
    (create_instance
        { cfgDemo with os_choice := "windows", enable_http_server := false }
        envAbsent).ret
      = some (Except.error ("KeyError: windows")) := by
  rfl

/-- C3 (amended): for every configuration whose `os_choice` is one of the
supported image keys and every remote behaviour, each mutating lifecycle
operation either blocks forever in the poller or returns a boolean, and never
lets an exception propagate to its caller; with an unsupported `os_choice`,
`create_instance` raises a KeyError (see the counterexample). -/
theorem lifecycle_no_uncaught_amended (cfg : Config) (env : Env)
    (hos : (os_images cfg.os_choice).isSome = true) (e : String) :
    (create_instance cfg env).ret ≠ some (Except.error e)
    ∧ (start_instance cfg env).ret ≠ some (Except.error e)
    ∧ (stop_instance cfg env).ret ≠ some (Except.error e)
    ∧ (restart_instance cfg env).ret ≠ some (Except.error e)
    ∧ (delete_instance cfg env).ret ≠ some (Except.error e) :=
  ⟨ret_shape_no_error (create_instance_ret_shape cfg env hos) e,
   ret_shape_no_error (start_instance_ret_shape cfg env) e,
   ret_shape_no_error (stop_instance_ret_shape cfg env) e,
   ret_shape_no_error (restart_instance_ret_shape cfg env) e,
   ret_shape_no_error (delete_instance_ret_shape cfg env) e⟩

theorem lifecycle_no_uncaught_amended_witness :
    (create_instance cfgDemo envAbsent).ret ≠ some (Except.error ("boom"))
    ∧ (stop_instance cfgDemo envRunning).ret ≠ some (Except.error ("boom")) := by
  have h1 := lifecycle_no_uncaught_amended cfgDemo envAbsent (by decide) ("boom")
  have h2 := lifecycle_no_uncaught_amended cfgDemo envRunning (by decide) ("boom")
  exact ⟨h1.1, h2.2.2.1⟩

/-- C4: when the instance-get succeeds (the instance already exists in the
target zone), `create_instance` returns success immediately: it submits no
mutating request at all — in particular no instance-creation request — and
leaves the configuration untouched, so a second `create` under the same
conditions again succeeds without attempting a creation. -/
theorem create_instance_existing_idempotent (cfg : Config) (env : Env)
    (s : String) (hex : env.instanceGet = Except.ok s) :
    (create_instance cfg env).ret = some (Except.ok true)
    ∧ (create_instance cfg env).calls = []
    ∧ (create_instance cfg env).cfg = cfg
    ∧ (create_instance cfg env).saves = [] := by
  refine ⟨?_, ?_, ?_, ?_⟩ <;> simp [create_instance, hex]

theorem create_instance_existing_idempotent_witness :
    (create_instance cfgDemo envRunning).ret = some (Except.ok true)
    ∧ (create_instance cfgDemo envRunning).calls = [] := by
  have h := create_instance_existing_idempotent cfgDemo envRunning ("RUNNING") rfl
  exact ⟨h.1, h.2.1⟩

/-- C5: `stop_instance` is an idempotent success (no stop request, nothing
persisted) when the current status is TERMINATED or STOPPED; it fails when
the status query fails (instance not found); otherwise it submits the stop,
awaits it, and on success persists `instance_state = "TERMINATED"` into the
configuration. -/
theorem stop_instance_contract (cfg : Config) (env : Env) :
    (∀ s, env.instanceGet = Except.ok s → (s = "TERMINATED" ∨ s = "STOPPED") →
      (stop_instance cfg env).ret = some (Except.ok true)
      ∧ (stop_instance cfg env).calls = []
      ∧ (stop_instance cfg env).saves = [])
    ∧ (∀ e, env.instanceGet = Except.error e →
      (stop_instance cfg env).ret = some (Except.ok false)
      ∧ (stop_instance cfg env).calls = []
      ∧ (stop_instance cfg env).saves = [])
    ∧ (∀ s script, env.instanceGet = Except.ok s →
      ¬(s = "TERMINATED" ∨ s = "STOPPED") →
      env.instanceStop = Except.ok script →
      wait_for_operation_run script = some (Except.ok true) →
      (stop_instance cfg env).ret = some (Except.ok true)
      ∧ (stop_instance cfg env).calls = [ApiCall.instancesStop cfg.vm_name]
      ∧ (stop_instance cfg env).cfg = { cfg with instance_state := "TERMINATED" }
      ∧ (stop_instance cfg env).saves = [{ cfg with instance_state := "TERMINATED" }]) := by
  refine ⟨?_, ?_, ?_⟩
  · intro s hs hterm
    refine ⟨?_, ?_, ?_⟩ <;> simp [stop_instance, get_instance_status, hs, hterm]
  · intro e he
    refine ⟨?_, ?_, ?_⟩ <;> simp [stop_instance, get_instance_status, he]
  · intro s script hs hterm hstop hw
    refine ⟨?_, ?_, ?_, ?_⟩ <;>
      simp [stop_instance, get_instance_status, hs, hterm, hstop, hw]

theorem stop_instance_contract_witness :
    (stop_instance cfgDemo envTerminated).ret = some (Except.ok true)
    ∧ (stop_instance cfgDemo envTerminated).calls = []
    ∧ (stop_instance cfgDemo envAbsent).ret = some (Except.ok false)
    ∧ (stop_instance cfgDemo envRunning).ret = some (Except.ok true)
    ∧ (stop_instance cfgDemo envRunning).calls = [ApiCall.instancesStop ("demo")]
    ∧ (stop_instance cfgDemo envRunning).cfg
        = { cfgDemo with instance_state := "TERMINATED" } := by
  have h1 := (stop_instance_contract cfgDemo envTerminated).1 ("TERMINATED") rfl
    (Or.inl rfl)
  have h2 := (stop_instance_contract cfgDemo envAbsent).2.1
    ("404 instance not found") rfl
  have h3 := (stop_instance_contract cfgDemo envRunning).2.2 ("RUNNING")
    [Except.ok doneOk] rfl (by decide) rfl rfl
  exact ⟨h1.1, h1.2.1, h2.1, h3.1, h3.2.1, h3.2.2.1⟩

/-- Recogniser for firewall-insert requests. -/
def isFirewallInsertCall : ApiCall → Bool
  | ApiCall.firewallsInsert _ => true
  | _ => false

/-- Recogniser for instance-insert requests. -/
def isInstanceInsertCall : ApiCall → Bool
  | ApiCall.instancesInsert _ => true
  | _ => false

/-- C9 counterexample: with the HTTP feature disabled, `create_instance`
proceeds past the existence check and submits the instance-create request
while ensuring no firewall rule at all — the firewall existence check fails
(rule absent) and no firewall insertion is ever attempted, contradicting the
claim for this configuration. -/
theorem create_without_firewall_counterexample :
    ({ cfgDemo with enable_http_server := false } : Config).enable_http_server = false
    ∧ envAbsent.firewallGet = Except.error ("404 firewall not found")
    ∧ ((create_instance { cfgDemo with enable_http_server := false }
        envAbsent).calls.any isFirewallInsertCall) = false
    ∧ ((create_instance { cfgDemo with enable_http_server := false }
        envAbsent).calls.any isInstanceInsertCall) = true
    ∧ (create_instance { cfgDemo with enable_http_server := false }
        envAbsent).ret = some (Except.ok true) := by
  refine ⟨rfl, rfl, ?_, ?_, ?_⟩ <;> rfl

/-- C9 (amended): when the HTTP feature is enabled and `create_instance`
proceeds past the existence check, the firewall rule — keyed by the
deterministic name `{vm_name}-allow-http` — is ensured before the
instance-create request: if the existence check succeeds nothing is inserted,
and if it fails in any way the failure is treated as absence and an insertion
of exactly that rule is the first mutating request submitted; with the HTTP
feature disabled the firewall step is skipped entirely. -/
theorem firewall_ensure_when_http_amended (cfg : Config) (env : Env)
    (hhttp : cfg.enable_http_server = true) :
    (∀ u, env.firewallGet = Except.ok u →
      (create_firewall_rule cfg env).calls = []
      ∧ (create_firewall_rule cfg env).ret = some (Except.ok true)
      ∧ ∀ r, ApiCall.firewallsInsert r ∉ (create_instance cfg env).calls)
    ∧ (∀ e e0, env.firewallGet = Except.error e →
      env.instanceGet = Except.error e0 →
      ∃ rest, (create_instance cfg env).calls
        = ApiCall.firewallsInsert (build_firewall_rule cfg) :: rest)
    ∧ (build_firewall_rule cfg).name = cfg.vm_name ++ "-allow-http" := by
  have hh : ¬cfg.enable_http_server = false := by simp [hhttp]
  refine ⟨?_, ?_, rfl⟩
  · intro u hg
    have hfr0 : create_firewall_rule cfg env =
        { ret := some (Except.ok true), cfg := cfg, saves := [], calls := [] } := by
      simp [create_firewall_rule, hh, hg]
    refine ⟨by simp [hfr0], by simp [hfr0], ?_⟩
    intro r
    cases hget : env.instanceGet with
    | ok s => simp [create_instance, hget]
    | error e0 =>
      simp only [create_instance, hget, hfr0]
      cases hbi : build_instance cfg with
      | error e1 => simp [hbi]
      | ok inst =>
        cases hins : env.instanceInsert with
        | error e1 => simp [hbi, hins]
        | ok script =>
          cases hw : wait_for_operation_run script with
          | none => simp [hbi, hins, hw]
          | some rr =>
            cases rr with
            | error e1 => simp [hbi, hins, hw]
            | ok b =>
              cases b with
              | false => simp [hbi, hins, hw]
              | true =>
                by_cases hterm : cfg.instance_state = "TERMINATED"
                · rcases stop_instance_calls_shape cfg env with hsc | hsc <;>
                    rcases stop_instance_ret_shape cfg env with hsr | ⟨sb, hsr⟩ <;>
                      simp [hbi, hins, hw, hterm, hsc, hsr]
                · simp [hbi, hins, hw, hterm]
  · intro e e0 hg hget
    have hfrc : (create_firewall_rule cfg env).calls
        = [ApiCall.firewallsInsert (build_firewall_rule cfg)] := by
      cases hins : env.firewallInsert with
      | error e1 => simp [create_firewall_rule, hh, hg, hins]
      | ok script =>
        cases hw : wait_for_operation_run script with
        | none => simp [create_firewall_rule, hh, hg, hins, hw]
        | some rr =>
          cases rr with
          | error e1 => simp [create_firewall_rule, hh, hg, hins, hw]
          | ok b => simp [create_firewall_rule, hh, hg, hins, hw]
    rcases create_firewall_rule_ret_shape cfg env with hfr | ⟨fb, hfr⟩
    · exact ⟨[], by simp [create_instance, hget, hfr, hfrc]⟩
    · cases fb with
      | false => exact ⟨[], by simp [create_instance, hget, hfr, hfrc]⟩
      | true =>
        cases hbi : build_instance cfg with
        | error e1 => exact ⟨[], by simp [create_instance, hget, hfr, hfrc, hbi]⟩
        | ok inst =>
          cases hins : env.instanceInsert with
          | error e1 =>
            exact ⟨[ApiCall.instancesInsert inst],
              by simp [create_instance, hget, hfr, hfrc, hbi, hins]⟩
          | ok script =>
            cases hw : wait_for_operation_run script with
            | none =>
              exact ⟨[ApiCall.instancesInsert inst],
                by simp [create_instance, hget, hfr, hfrc, hbi, hins, hw]⟩
            | some rr =>
              cases rr with
              | error e1 =>
                exact ⟨[ApiCall.instancesInsert inst],
                  by simp [create_instance, hget, hfr, hfrc, hbi, hins, hw]⟩
              | ok b =>
                cases b with
                | false =>
                  exact ⟨[ApiCall.instancesInsert inst],
                    by simp [create_instance, hget, hfr, hfrc, hbi, hins, hw]⟩
                | true =>
                  by_cases hterm : cfg.instance_state = "TERMINATED"
                  · refine ⟨ApiCall.instancesInsert inst :: (stop_instance cfg env).calls, ?_⟩
                    rcases stop_instance_ret_shape cfg env with hsr | ⟨sb, hsr⟩ <;>
                      simp [create_instance, hget, hfr, hfrc, hbi, hins, hw, hterm, hsr]
                  · exact ⟨[ApiCall.instancesInsert inst],
                      by simp [create_instance, hget, hfr, hfrc, hbi, hins, hw, hterm]⟩

theorem firewall_ensure_when_http_amended_witness :
    (create_firewall_rule cfgDemo envRunningFw).calls = []
    ∧ (create_firewall_rule cfgDemo envRunningFw).ret = some (Except.ok true)
    ∧ (build_firewall_rule cfgDemo).name = "demo-allow-http"
    ∧ (create_instance cfgDemo envAbsent).calls.head?
        = some (ApiCall.firewallsInsert (build_firewall_rule cfgDemo)) := by
  have h1 := firewall_ensure_when_http_amended cfgDemo envRunningFw rfl
  have h2 := firewall_ensure_when_http_amended cfgDemo envAbsent rfl
  have hg := h1.1 () rfl
  obtain ⟨rest, hrest⟩ := h2.2.1 ("404 firewall not found")
    ("404 instance not found") rfl rfl
  exact ⟨hg.1, hg.2.1, h1.2.2, by simp [hrest]⟩

/-- C10: for `start_instance` and `stop_instance`, the in-memory
`instance_state` is mutated and `save_config` invoked only after the awaited
remote operation reports success; on every other path (instance not found,
operation error or exception, or a poll that never terminates) the
configuration is unchanged and nothing is written to disk. -/
theorem config_persist_only_after_success (cfg : Config) (env : Env) :
    ((start_instance cfg env).ret ≠ some (Except.ok true) →
      (start_instance cfg env).cfg = cfg ∧ (start_instance cfg env).saves = [])
    ∧ ((start_instance cfg env).saves ≠ [] →
      ∃ script, env.instanceStart = Except.ok script
        ∧ wait_for_operation_run script = some (Except.ok true)
        ∧ (start_instance cfg env).ret = some (Except.ok true)
        ∧ (start_instance cfg env).cfg = { cfg with instance_state := "RUNNING" }
        ∧ (start_instance cfg env).saves = [{ cfg with instance_state := "RUNNING" }])
    ∧ ((stop_instance cfg env).ret ≠ some (Except.ok true) →
      (stop_instance cfg env).cfg = cfg ∧ (stop_instance cfg env).saves = [])
    ∧ ((stop_instance cfg env).saves ≠ [] →
      ∃ script, env.instanceStop = Except.ok script
        ∧ wait_for_operation_run script = some (Except.ok true)
        ∧ (stop_instance cfg env).ret = some (Except.ok true)
        ∧ (stop_instance cfg env).cfg = { cfg with instance_state := "TERMINATED" }
        ∧ (stop_instance cfg env).saves = [{ cfg with instance_state := "TERMINATED" }]) := by
  refine ⟨?_, ?_, ?_, ?_⟩
  · intro hne
    cases hs : get_instance_status env with
    | none => exact ⟨by simp [start_instance, hs], by simp [start_instance, hs]⟩
    | some st =>
      by_cases hrun : st = "RUNNING"
      · exact ⟨by simp [start_instance, hs, hrun], by simp [start_instance, hs, hrun]⟩
      · cases hstart : env.instanceStart with
        | error e =>
          exact ⟨by simp [start_instance, hs, hrun, hstart],
            by simp [start_instance, hs, hrun, hstart]⟩
        | ok script =>
          cases hw : wait_for_operation_run script with
          | none =>
            exact ⟨by simp [start_instance, hs, hrun, hstart, hw],
              by simp [start_instance, hs, hrun, hstart, hw]⟩
          | some r =>
            cases r with
            | error e =>
              exact ⟨by simp [start_instance, hs, hrun, hstart, hw],
                by simp [start_instance, hs, hrun, hstart, hw]⟩
            | ok b =>
              cases b with
              | false =>
                exact ⟨by simp [start_instance, hs, hrun, hstart, hw],
                  by simp [start_instance, hs, hrun, hstart, hw]⟩
              | true =>
                exact absurd (by simp [start_instance, hs, hrun, hstart, hw]) hne
  · intro hsv
    cases hs : get_instance_status env with
    | none => exact absurd (by simp [start_instance, hs]) hsv
    | some st =>
      by_cases hrun : st = "RUNNING"
      · exact absurd (by simp [start_instance, hs, hrun]) hsv
      · cases hstart : env.instanceStart with
        | error e => exact absurd (by simp [start_instance, hs, hrun, hstart]) hsv
        | ok script =>
          cases hw : wait_for_operation_run script with
          | none => exact absurd (by simp [start_instance, hs, hrun, hstart, hw]) hsv
          | some r =>
            cases r with
            | error e =>
              exact absurd (by simp [start_instance, hs, hrun, hstart, hw]) hsv
            | ok b =>
              cases b with
              | false =>
                exact absurd (by simp [start_instance, hs, hrun, hstart, hw]) hsv
              | true =>
                exact ⟨script, rfl, hw,
                  by simp [start_instance, hs, hrun, hstart, hw],
                  by simp [start_instance, hs, hrun, hstart, hw],
                  by simp [start_instance, hs, hrun, hstart, hw]⟩
  · intro hne
    cases hs : get_instance_status env with
    | none => exact ⟨by simp [stop_instance, hs], by simp [stop_instance, hs]⟩
    | some st =>
      by_cases hterm : st = "TERMINATED" ∨ st = "STOPPED"
      · exact ⟨by simp [stop_instance, hs, hterm], by simp [stop_instance, hs, hterm]⟩
      · cases hstop : env.instanceStop with
        | error e =>
          exact ⟨by simp [stop_instance, hs, hterm, hstop],
            by simp [stop_instance, hs, hterm, hstop]⟩
        | ok script =>
          cases hw : wait_for_operation_run script with
          | none =>
            exact ⟨by simp [stop_instance, hs, hterm, hstop, hw],
              by simp [stop_instance, hs, hterm, hstop, hw]⟩
          | some r =>
            cases r with
            | error e =>
              exact ⟨by simp [stop_instance, hs, hterm, hstop, hw],
                by simp [stop_instance, hs, hterm, hstop, hw]⟩
            | ok b =>
              cases b with
              | false =>
                exact ⟨by simp [stop_instance, hs, hterm, hstop, hw],
                  by simp [stop_instance, hs, hterm, hstop, hw]⟩
              | true =>
                exact absurd (by simp [stop_instance, hs, hterm, hstop, hw]) hne
  · intro hsv
    cases hs : get_instance_status env with
    | none => exact absurd (by simp [stop_instance, hs]) hsv
    | some st =>
      by_cases hterm : st = "TERMINATED" ∨ st = "STOPPED"
      · exact absurd (by simp [stop_instance, hs, hterm]) hsv
      · cases hstop : env.instanceStop with
        | error e => exact absurd (by simp [stop_instance, hs, hterm, hstop]) hsv
        | ok script =>
          cases hw : wait_for_operation_run script with
          | none => exact absurd (by simp [stop_instance, hs, hterm, hstop, hw]) hsv
          | some r =>
            cases r with
            | error e =>
              exact absurd (by simp [stop_instance, hs, hterm, hstop, hw]) hsv
            | ok b =>
              cases b with
              | false =>
                exact absurd (by simp [stop_instance, hs, hterm, hstop, hw]) hsv
              | true =>
                exact ⟨script, rfl, hw,
                  by simp [stop_instance, hs, hterm, hstop, hw],
                  by simp [stop_instance, hs, hterm, hstop, hw],
                  by simp [stop_instance, hs, hterm, hstop, hw]⟩

theorem config_persist_only_after_success_witness :
    (start_instance cfgDemo envAbsent).cfg = cfgDemo
    ∧ (start_instance cfgDemo envAbsent).saves = []
    ∧ (start_instance cfgDemo envTerminated).cfg
        = { cfgDemo with instance_state := "RUNNING" }
    ∧ (start_instance cfgDemo envTerminated).ret = some (Except.ok true)
    ∧ (stop_instance cfgDemo envAbsent).cfg = cfgDemo
    ∧ (stop_instance cfgDemo envAbsent).saves = []
    ∧ (stop_instance cfgDemo envRunning).saves
        = [{ cfgDemo with instance_state := "TERMINATED" }] := by
  have h1 := (config_persist_only_after_success cfgDemo envAbsent).1 (by decide)
  have h2 := (config_persist_only_after_success cfgDemo envTerminated).2.1 (by decide)
  have h3 := (config_persist_only_after_success cfgDemo envAbsent).2.2.1 (by decide)
  have h4 := (config_persist_only_after_success cfgDemo envRunning).2.2.2 (by decide)
  obtain ⟨s2, _, _, hret2, hcfg2, _⟩ := h2
  obtain ⟨s4, _, _, _, _, hsv4⟩ := h4
  exact ⟨h1.1, h1.2, hcfg2, hret2, h3.1, h3.2, hsv4⟩

theorem contains_of_eq (s a p b : String) (h : s = a ++ p ++ b) : Contains s p :=
  ⟨a, b, h⟩

/-- C7: `generate_startup_script` is deterministic, its output literally
contains the configured instance name and the resolved zone string, and the
resolved zone is the configured zone when non-empty and `{region}-a` when
the zone is empty. -/
theorem generate_startup_script_contract (cfg : Config) :
    (∀ c2 : Config, c2 = cfg →
      generate_startup_script c2 = generate_startup_script cfg)
    ∧ Contains (generate_startup_script cfg) cfg.vm_name
    ∧ Contains (generate_startup_script cfg) (get_zone cfg)
    ∧ (cfg.zone = "" → get_zone cfg = cfg.region ++ "-a")
    ∧ (cfg.zone ≠ "" → get_zone cfg = cfg.zone) := by
  refine ⟨fun c2 h => by rw [h], ?_, ?_, ?_, ?_⟩
  · refine contains_of_eq _
      ("#!/bin/bash\necho \"" ++ "=== Starting " ++ pyTitle cfg.os_choice ++
        " VM Setup ===" ++
        "\" | tee -a /var/log/startup.log\necho \"Timestamp: $(date)\" | tee -a /var/log/startup.log\necho \"VM Name: ")
      _
      ("\" | tee -a /var/log/startup.log\necho \"Machine Type: " ++
        cfg.machine_type ++
        "\" | tee -a /var/log/startup.log\necho \"Zone: " ++
        get_zone cfg ++
        "\" | tee -a /var/log/startup.log\n" ++ httpSection cfg ++ scriptFooter cfg)
      ?_
    simp only [generate_startup_script, scriptHeader, String.append_assoc]
  · refine contains_of_eq _
      ("#!/bin/bash\necho \"" ++ "=== Starting " ++ pyTitle cfg.os_choice ++
        " VM Setup ===" ++
        "\" | tee -a /var/log/startup.log\necho \"Timestamp: $(date)\" | tee -a /var/log/startup.log\necho \"VM Name: " ++
        cfg.vm_name ++
        "\" | tee -a /var/log/startup.log\necho \"Machine Type: " ++
        cfg.machine_type ++
        "\" | tee -a /var/log/startup.log\necho \"Zone: ")
      _
      ("\" | tee -a /var/log/startup.log\n" ++ httpSection cfg ++ scriptFooter cfg)
      ?_
    simp only [generate_startup_script, scriptHeader, String.append_assoc]
  · intro hz
    simp [get_zone, hz]
  · intro hz
    simp [get_zone, hz]

theorem generate_startup_script_contract_witness :
    get_zone cfgDemo = "us-west1-a"
    ∧ Contains (generate_startup_script cfgDemo) ("demo")
    ∧ Contains (generate_startup_script cfgDemo) ("us-west1-a") := by
  have h := generate_startup_script_contract cfgDemo
  have hz : get_zone cfgDemo = "us-west1-a" := h.2.2.2.1 rfl
  have hn : Contains (generate_startup_script cfgDemo) ("demo") := h.2.1
  have hc : Contains (generate_startup_script cfgDemo) ("us-west1-a") := by
    have := h.2.2.1
    rwa [hz] at this
  exact ⟨hz, hn, hc⟩

/-- C8: with the HTTP feature enabled, the generated script branches on the
OS choice — for "ubuntu" it contains an Apache install/start section and an
HTML page embedding the instance name, zone and machine type; for "debian"
an Nginx install/start section with a simpler page embedding the instance
name; and for any other OS choice no HTTP-server section is appended (the
script is exactly header plus footer) while the header and footer log lines
are still present. -/
theorem generate_startup_script_http_branches (cfg : Config)
    (hhttp : cfg.enable_http_server = true) :
    (cfg.os_choice = "ubuntu" →
      Contains (generate_startup_script cfg) ("apt-get install -y apache2")
      ∧ Contains (generate_startup_script cfg) ("systemctl start apache2")
      ∧ Contains (generate_startup_script cfg) ("<p>VM: " ++ cfg.vm_name ++ "</p>")
      ∧ Contains (generate_startup_script cfg) ("<p>Zone: " ++ get_zone cfg ++ "</p>")
      ∧ Contains (generate_startup_script cfg)
          ("<p>Machine Type: " ++ cfg.machine_type ++ "</p>"))
    ∧ (cfg.os_choice = "debian" →
      Contains (generate_startup_script cfg) ("apt-get install -y nginx")
      ∧ Contains (generate_startup_script cfg) ("systemctl start nginx")
      ∧ Contains (generate_startup_script cfg) ("<p>VM: " ++ cfg.vm_name ++ "</p>"))
    ∧ (cfg.os_choice ≠ "ubuntu" → cfg.os_choice ≠ "debian" →
      generate_startup_script cfg = scriptHeader cfg ++ scriptFooter cfg
      ∧ Contains (generate_startup_script cfg)
          ("=== Starting " ++ pyTitle cfg.os_choice ++ " VM Setup ===")
      ∧ Contains (generate_startup_script cfg)
          ("=== " ++ pyTitle cfg.os_choice ++ " VM Setup Complete ===")) := by
  refine ⟨?_, ?_, ?_⟩
  · intro hu
    have hsec : httpSection cfg = ubuntuSection cfg := by
      simp [httpSection, hhttp, hu]
    refine ⟨?_, ?_, ?_, ?_, ?_⟩
    · refine contains_of_eq _
        (scriptHeader cfg ++
          "\necho \"Updating package lists...\" | tee -a /var/log/startup.log\napt-get update 2>&1 | tee -a /var/log/startup.log\necho \"Installing Apache2...\" | tee -a /var/log/startup.log\n")
        _
        (" 2>&1 | tee -a /var/log/startup.log\necho \"Creating hello world page...\" | tee -a /var/log/startup.log\nmkdir -p /var/www/html\ncat > /var/www/html/index.html << \x27EOF\x27\n<html>\n<head><title>Python-Managed VM</title></head>\n<body>\n<h1>Hello, World!</h1>\n" ++
          "<p>VM: " ++ cfg.vm_name ++ "</p>" ++ "\n" ++
          "<p>Zone: " ++ get_zone cfg ++ "</p>" ++ "\n" ++
          "<p>Machine Type: " ++ cfg.machine_type ++ "</p>" ++
          "\n<p>Managed by: Python Script</p>\n<p>Timestamp: $(date)</p>\n</body>\n</html>\nEOF\necho \"Starting Apache2...\" | tee -a /var/log/startup.log\n" ++
          "systemctl start apache2" ++
          " 2>&1 | tee -a /var/log/startup.log\nsystemctl enable apache2 2>&1 | tee -a /var/log/startup.log\n" ++
          scriptFooter cfg)
        ?_
      simp only [generate_startup_script, hsec, ubuntuSection, String.append_assoc]
    · refine contains_of_eq _
        (scriptHeader cfg ++
          "\necho \"Updating package lists...\" | tee -a /var/log/startup.log\napt-get update 2>&1 | tee -a /var/log/startup.log\necho \"Installing Apache2...\" | tee -a /var/log/startup.log\n" ++
          "apt-get install -y apache2" ++
          " 2>&1 | tee -a /var/log/startup.log\necho \"Creating hello world page...\" | tee -a /var/log/startup.log\nmkdir -p /var/www/html\ncat > /var/www/html/index.html << \x27EOF\x27\n<html>\n<head><title>Python-Managed VM</title></head>\n<body>\n<h1>Hello, World!</h1>\n" ++
          "<p>VM: " ++ cfg.vm_name ++ "</p>" ++ "\n" ++
          "<p>Zone: " ++ get_zone cfg ++ "</p>" ++ "\n" ++
          "<p>Machine Type: " ++ cfg.machine_type ++ "</p>" ++
          "\n<p>Managed by: Python Script</p>\n<p>Timestamp: $(date)</p>\n</body>\n</html>\nEOF\necho \"Starting Apache2...\" | tee -a /var/log/startup.log\n")
        _
        (" 2>&1 | tee -a /var/log/startup.log\nsystemctl enable apache2 2>&1 | tee -a /var/log/startup.log\n" ++
          scriptFooter cfg)
        ?_
      simp only [generate_startup_script, hsec, ubuntuSection, String.append_assoc]
    · refine contains_of_eq _
        (scriptHeader cfg ++
          "\necho \"Updating package lists...\" | tee -a /var/log/startup.log\napt-get update 2>&1 | tee -a /var/log/startup.log\necho \"Installing Apache2...\" | tee -a /var/log/startup.log\n" ++
          "apt-get install -y apache2" ++
          " 2>&1 | tee -a /var/log/startup.log\necho \"Creating hello world page...\" | tee -a /var/log/startup.log\nmkdir -p /var/www/html\ncat > /var/www/html/index.html << \x27EOF\x27\n<html>\n<head><title>Python-Managed VM</title></head>\n<body>\n<h1>Hello, World!</h1>\n")
        _
        ("\n" ++
          "<p>Zone: " ++ get_zone cfg ++ "</p>" ++ "\n" ++
          "<p>Machine Type: " ++ cfg.machine_type ++ "</p>" ++
          "\n<p>Managed by: Python Script</p>\n<p>Timestamp: $(date)</p>\n</body>\n</html>\nEOF\necho \"Starting Apache2...\" | tee -a /var/log/startup.log\n" ++
          "systemctl start apache2" ++
          " 2>&1 | tee -a /var/log/startup.log\nsystemctl enable apache2 2>&1 | tee -a /var/log/startup.log\n" ++
          scriptFooter cfg)
        ?_
      simp only [generate_startup_script, hsec, ubuntuSection, String.append_assoc]
    · refine contains_of_eq _
        (scriptHeader cfg ++
          "\necho \"Updating package lists...\" | tee -a /var/log/startup.log\napt-get update 2>&1 | tee -a /var/log/startup.log\necho \"Installing Apache2...\" | tee -a /var/log/startup.log\n" ++
          "apt-get install -y apache2" ++
          " 2>&1 | tee -a /var/log/startup.log\necho \"Creating hello world page...\" | tee -a /var/log/startup.log\nmkdir -p /var/www/html\ncat > /var/www/html/index.html << \x27EOF\x27\n<html>\n<head><title>Python-Managed VM</title></head>\n<body>\n<h1>Hello, World!</h1>\n" ++
          "<p>VM: " ++ cfg.vm_name ++ "</p>" ++ "\n")
        _
        ("\n" ++
          "<p>Machine Type: " ++ cfg.machine_type ++ "</p>" ++
          "\n<p>Managed by: Python Script</p>\n<p>Timestamp: $(date)</p>\n</body>\n</html>\nEOF\necho \"Starting Apache2...\" | tee -a /var/log/startup.log\n" ++
          "systemctl start apache2" ++
          " 2>&1 | tee -a /var/log/startup.log\nsystemctl enable apache2 2>&1 | tee -a /var/log/startup.log\n" ++
          scriptFooter cfg)
        ?_
      simp only [generate_startup_script, hsec, ubuntuSection, String.append_assoc]
    · refine contains_of_eq _
        (scriptHeader cfg ++
          "\necho \"Updating package lists...\" | tee -a /var/log/startup.log\napt-get update 2>&1 | tee -a /var/log/startup.log\necho \"Installing Apache2...\" | tee -a /var/log/startup.log\n" ++
          "apt-get install -y apache2" ++
          " 2>&1 | tee -a /var/log/startup.log\necho \"Creating hello world page...\" | tee -a /var/log/startup.log\nmkdir -p /var/www/html\ncat > /var/www/html/index.html << \x27EOF\x27\n<html>\n<head><title>Python-Managed VM</title></head>\n<body>\n<h1>Hello, World!</h1>\n" ++
          "<p>VM: " ++ cfg.vm_name ++ "</p>" ++ "\n" ++
          "<p>Zone: " ++ get_zone cfg ++ "</p>" ++ "\n")
        _
        ("\n<p>Managed by: Python Script</p>\n<p>Timestamp: $(date)</p>\n</body>\n</html>\nEOF\necho \"Starting Apache2...\" | tee -a /var/log/startup.log\n" ++
          "systemctl start apache2" ++
          " 2>&1 | tee -a /var/log/startup.log\nsystemctl enable apache2 2>&1 | tee -a /var/log/startup.log\n" ++
          scriptFooter cfg)
        ?_
      simp only [generate_startup_script, hsec, ubuntuSection, String.append_assoc]
  · intro hd
    have hnu : ¬cfg.os_choice = "ubuntu" := by simp [hd]
    have hsec : httpSection cfg = debianSection cfg := by
      simp [httpSection, hhttp, hd, hnu]
    refine ⟨?_, ?_, ?_⟩
    · refine contains_of_eq _
        (scriptHeader cfg ++
          "\necho \"Installing Nginx...\" | tee -a /var/log/startup.log\napt-get update 2>&1 | tee -a /var/log/startup.log\n")
        _
        (" 2>&1 | tee -a /var/log/startup.log\necho \"" ++
          "<h1>Hello from Debian!</h1>" ++
          "<p>VM: " ++ cfg.vm_name ++ "</p>" ++
          "\" > /var/www/html/index.html\n" ++
          "systemctl start nginx" ++
          " 2>&1 | tee -a /var/log/startup.log\nsystemctl enable nginx 2>&1 | tee -a /var/log/startup.log\n" ++
          scriptFooter cfg)
        ?_
      simp only [generate_startup_script, hsec, debianSection, String.append_assoc]
    · refine contains_of_eq _
        (scriptHeader cfg ++
          "\necho \"Installing Nginx...\" | tee -a /var/log/startup.log\napt-get update 2>&1 | tee -a /var/log/startup.log\n" ++
          "apt-get install -y nginx" ++
          " 2>&1 | tee -a /var/log/startup.log\necho \"" ++
          "<h1>Hello from Debian!</h1>" ++
          "<p>VM: " ++ cfg.vm_name ++ "</p>" ++
          "\" > /var/www/html/index.html\n")
        _
        (" 2>&1 | tee -a /var/log/startup.log\nsystemctl enable nginx 2>&1 | tee -a /var/log/startup.log\n" ++
          scriptFooter cfg)
        ?_
      simp only [generate_startup_script, hsec, debianSection, String.append_assoc]
    · refine contains_of_eq _
        (scriptHeader cfg ++
          "\necho \"Installing Nginx...\" | tee -a /var/log/startup.log\napt-get update 2>&1 | tee -a /var/log/startup.log\n" ++
          "apt-get install -y nginx" ++
          " 2>&1 | tee -a /var/log/startup.log\necho \"" ++
          "<h1>Hello from Debian!</h1>")
        _
        ("\" > /var/www/html/index.html\n" ++
          "systemctl start nginx" ++
          " 2>&1 | tee -a /var/log/startup.log\nsystemctl enable nginx 2>&1 | tee -a /var/log/startup.log\n" ++
          scriptFooter cfg)
        ?_
      simp only [generate_startup_script, hsec, debianSection, String.append_assoc]
  · intro h1 h2
    have hsec : httpSection cfg = "" := by
      simp [httpSection, hhttp, h1, h2]
    refine ⟨?_, ?_, ?_⟩
    · simp only [generate_startup_script, hsec, String.append_empty,
        String.empty_append]
    · refine contains_of_eq _
        ("#!/bin/bash\necho \"")
        _
        ("\" | tee -a /var/log/startup.log\necho \"Timestamp: $(date)\" | tee -a /var/log/startup.log\necho \"VM Name: " ++
          cfg.vm_name ++
          "\" | tee -a /var/log/startup.log\necho \"Machine Type: " ++
          cfg.machine_type ++
          "\" | tee -a /var/log/startup.log\necho \"Zone: " ++
          get_zone cfg ++
          "\" | tee -a /var/log/startup.log\n" ++ scriptFooter cfg)
        ?_
      simp only [generate_startup_script, hsec, scriptHeader, String.append_assoc,
        String.append_empty, String.empty_append]
    · refine contains_of_eq _
        (scriptHeader cfg ++ "\necho \"")
        _
        ("\" | tee -a /var/log/startup.log\n")
        ?_
      simp only [generate_startup_script, hsec, scriptFooter, String.append_assoc,
        String.append_empty, String.empty_append]

theorem generate_startup_script_http_branches_witness :
    Contains (generate_startup_script cfgDemo) ("apt-get install -y apache2")
    ∧ Contains (generate_startup_script cfgDemo) ("<p>VM: demo</p>")
    ∧ generate_startup_script { cfgDemo with os_choice := "arch" }
        = scriptHeader { cfgDemo with os_choice := "arch" }
          ++ scriptFooter { cfgDemo with os_choice := "arch" } := by
  have hu := (generate_startup_script_http_branches cfgDemo rfl).1 rfl
  have ho := ((generate_startup_script_http_branches
      { cfgDemo with os_choice := "arch" } rfl).2.2 (by decide) (by decide)).1
  have hvm : Contains (generate_startup_script cfgDemo) ("<p>VM: demo</p>") := by
    have := hu.2.2.1
    simpa using this
  exact ⟨hu.1, hvm, ho⟩
